import Mathlib

/-!
Shallow embedding of `himawaripy/__main__.py` (himawaripy 2.0.0).

Timestamps are modelled as integer minutes: `datetime` values at minute
resolution are order-isomorphic to their minute count, and all arithmetic the
code performs on them (comparison, subtraction, adding a whole-hour
`timedelta`) is mirrored exactly by integer arithmetic on minutes.
`minutes2024` converts a calendar date in the year 2024 (a leap year, so
February has 29 days) into minutes since 2024-01-01 00:00, matching Python
`datetime` arithmetic for naive timestamps inside that year.
-/

/-- Cumulative days before each month of 2024 (leap year: February has 29). -/
def daysBefore2024 : List Nat := [0, 31, 60, 91, 121, 152, 182, 213, 244, 274, 305, 335]

/-- Minutes since 2024-01-01 00:00 of the calendar instant
2024-`month`-`day` `hour`:`minute`. -/
def minutes2024 (month day hour minute : Nat) : Int :=
  Int.ofNat (((daysBefore2024.getD (month - 1) 0 + (day - 1)) * 24 + hour) * 60 + minute)

def ts_2024_03_01_0300 : Int := minutes2024 3 1 3 0
def ts_2024_02_29_2000 : Int := minutes2024 2 29 20 0
def ts_2024_02_28_2010 : Int := minutes2024 2 28 20 10
def ts_2024_02_28_2000 : Int := minutes2024 2 28 20 0
def ts_2024_02_28_1950 : Int := minutes2024 2 28 19 50

/-! ## `calculate_time_offset` (lines 39-56)

In auto mode the code reads `int(datetime.now(tzlocal()).strftime("%z")[0:3])`:
the sign and the two hour digits of the local UTC offset string, i.e. the raw
local offset truncated toward zero to whole hours.  We model the raw local
offset as an explicit input in minutes. -/

/-- The integer the code obtains from `strftime("%z")[0:3]`: the raw local UTC
offset (given in minutes) truncated toward zero to whole hours. -/
def detectedHour (rawMinutes : Int) : Int :=
  if 0 ≤ rawMinutes then rawMinutes / 60 else -((-rawMinutes) / 60)

/-- The clamp at lines 43-48: `if 11 >= off > 10: off = 10`,
`elif 12 >= off > 11: off = -12`, applied to the detected whole-hour value. -/
def clampDetected (d : Int) : Int :=
  if 10 < d ∧ d ≤ 11 then 10
  else if 11 < d ∧ d ≤ 12 then -12
  else d

/-- Lines 39-56: pick the preferred offset (detected-and-clamped in auto mode,
the `-o` argument otherwise), subtract the satellite reference offset 10, and
shift the latest timestamp by that many hours. -/
def calculate_time_offset (latest : Int) (auto : Bool) (preferred rawLocalMinutes : Int) :
    Int :=
  let p := if auto then clampDetected (detectedHour rawLocalMinutes) else preferred
  let offset := p - 10
  latest + offset * 60

/-! ## `find_closest_recent_time` (lines 146-187)

Snapshot entries are their parsed minute values.  The second component of the
result counts how many loop iterations performed a distance comparison against
the previous distance (the `==` / `<` / else cascade at lines 177-187); the
fast path and the first iteration perform none.  Note the Python loop has no
`return` after it: if the scan exhausts the list, the function falls off the
end and returns `None`, which the embedding mirrors with `(none, 0)` at the
`[]` case of `find_loop`. -/

/-- The distance computation at lines 165-168 / 172-175:
`recent - requested` if `recent > requested`, else `requested - recent`. -/
def absdiff (requested t : Int) : Int :=
  if t > requested then t - requested else requested - t

/-- The scan loop of lines 160-187 after the first element initialised
`closest` / `closestDiff`; returns the result together with the number of
distance comparisons performed. -/
def find_loop (requested : Int) : List Int → Int → Int → Option Int × Nat
  | [], _, _ => (none, 0)
  | t :: rest, closest, closestDiff =>
    let d := absdiff requested t
    if d = closestDiff then (some closest, 1)
    else if d < closestDiff then
      let p := find_loop requested rest t d
      (p.1, p.2 + 1)
    else (some closest, 1)

/-- Lines 146-187: exact-minute fast path (lines 150-152), then the scan whose
first iteration only initialises state (lines 163-169), then `find_loop`. -/
def find_closest_recent_time (recent_times : List Int) (requested : Int) :
    Option Int × Nat :=
  match recent_times.find? (fun t => t == requested) with
  | some t => (some t, 0)
  | none =>
    match recent_times with
    | [] => (none, 0)
    | t :: rest => find_loop requested rest t (absdiff requested t)

/-! ## `parse_args` validation (lines 103-111) and `main` sequencing -/

structure Args where
  auto_offset : Bool
  offset : Int
  level : Nat
  deadline : Int
  save_battery : Bool
  output_dir : String
  composite_over : Option String

/-- Lines 105-109: the two `sys.exit` checks performed after argument parsing;
on success the parsed arguments are returned unchanged. -/
def validate_args (a : Args) : Except String Args :=
  if ¬ (-12 ≤ a.offset ∧ a.offset ≤ 10) then
    Except.error "OFFSET has to be between -12 and +10!\n"
  else if ¬ (0 ≤ a.deadline) then
    Except.error "DEADLINE has to be greater than (or equal to if you want to disable) zero!\n"
  else Except.ok a

/-- Observable effects of a run, for sequencing claims. -/
inductive Effect where
  | exitErr (msg : String)
  | network (url : String)
  | other (tag : String)

def Effect.isNetwork : Effect → Bool
  | Effect.network _ => true
  | _ => false

/-- `main` (lines 266-282): validation runs first; `sys.exit` aborts before the
downstream pipeline `rest` (which contains all network effects) is reached. -/
def main_start (a : Args) (rest : List Effect) : List Effect :=
  match validate_args a with
  | Except.error m => [Effect.exitErr m]
  | Except.ok _ => rest

/-! ## `download` (lines 127-143) -/

/-- Events of one `download` call: an attempt, the retry log line
(`"[i/total] Retrying..."`, `total` is the literal 3), a one-unit sleep. -/
inductive Ev where
  | attempt (i : Nat)
  | retryLog (i total : Nat)
  | sleep1

/-- Outcome of `download`: returned payload, raised exception, or the final
`sys.exit("Could not download ...")` branch at line 143. -/
inductive DLResult (ε α : Type) where
  | ok (a : α)
  | raised (e : ε)
  | exitMsg

/-- The `for i in range(1, 4)` loop of lines 130-138 followed by lines
140-143, with the recorded exception threaded explicitly; `fetch i` models the
`urlopen` of attempt `i`. -/
def download_loop {ε α : Type} (fetch : Nat → Except ε α) :
    List Nat → Option ε → DLResult ε α × List Ev
  | [], none => (DLResult.exitMsg, [])
  | [], some e => (DLResult.raised e, [])
  | i :: rest, _ =>
    match fetch i with
    | Except.ok a => (DLResult.ok a, [Ev.attempt i])
    | Except.error e =>
      let p := download_loop fetch rest (some e)
      (p.1, Ev.attempt i :: Ev.retryLog i 3 :: Ev.sleep1 :: p.2)

/-- Lines 127-143: at most the three attempts `1, 2, 3`, starting with no
recorded exception. -/
def download {ε α : Type} (fetch : Nat → Except ε α) : DLResult ε α × List Ev :=
  download_loop fetch [1, 2, 3] none

def countAttempts (evs : List Ev) : Nat :=
  evs.countP (fun e => match e with | Ev.attempt _ => true | _ => false)

def countRetryLogs (evs : List Ev) : Nat :=
  evs.countP (fun e => match e with | Ev.retryLog _ _ => true | _ => false)

/-! ## Output-directory state in `thread_main` (lines 254-260) -/

def startsWithChars : List Char → List Char → Bool
  | [], _ => true
  | _ :: _, [] => false
  | p :: ps, c :: cs => p == c && startsWithChars ps cs

def endsWithChars (p s : List Char) : Bool :=
  startsWithChars p.reverse s.reverse

/-- Whether a file name matches the glob `himawari-*.png` of line 254. -/
def matchesHimawariGlob (name : String) : Bool :=
  startsWithChars "himawari-".toList name.toList &&
    endsWithChars ".png".toList name.toList

/-- Lines 254-255: every file matching `himawari-*.png` is removed. -/
def delete_prior_outputs (files : List String) : List String :=
  files.filter (fun f => ! matchesHimawariGlob f)

/-- Lines 254-260: prior outputs are deleted first, then the save either
succeeds (adding the new file) or fails (adding nothing). -/
def output_phase (files : List String) (newName : String) (saveOk : Bool) :
    Bool × List String :=
  let cleaned := delete_prior_outputs files
  if saveOk then (true, newName :: cleaned) else (false, cleaned)

/-- Output-directory state over a whole `thread_main` run: a failure anywhere
before line 254 (`downloadOk = false`) leaves the directory untouched; once
line 254 is reached, `output_phase` runs. -/
def thread_main_files (files : List String) (newName : String)
    (downloadOk saveOk : Bool) : Bool × List String :=
  if downloadOk then output_phase files newName saveOk else (false, files)

/-! ## Theorems -/

/-- C1: with no exact-minute match, the scan keeps the current closest
candidate and its distance; an equal distance returns the previously kept
closest (the candidate is not taken), a strictly smaller distance updates the
kept closest and continues, a strictly larger distance returns the kept
closest immediately.  For candidates at distances [5,3,1,2,4] the element at
distance 1 is returned, and for the list [2024-03-01 03:00, 2024-02-28 20:10,
2024-02-28 19:50] with target 2024-02-28 20:00 the result is
2024-02-28 20:10. -/
theorem c1_scan_branches :
    (∀ (requested : Int) (rest : List Int) (t closest closestDiff : Int),
        absdiff requested t = closestDiff →
        find_loop requested (t :: rest) closest closestDiff = (some closest, 1))
    ∧ (∀ (requested : Int) (rest : List Int) (t closest closestDiff : Int),
        absdiff requested t < closestDiff →
        find_loop requested (t :: rest) closest closestDiff =
          ((find_loop requested rest t (absdiff requested t)).1,
           (find_loop requested rest t (absdiff requested t)).2 + 1))
    ∧ (∀ (requested : Int) (rest : List Int) (t closest closestDiff : Int),
        closestDiff < absdiff requested t →
        find_loop requested (t :: rest) closest closestDiff = (some closest, 1))
    ∧ (find_closest_recent_time [105, 103, 101, 98, 96] 100).1 = some 101
    ∧ (find_closest_recent_time
        [ts_2024_03_01_0300, ts_2024_02_28_2010, ts_2024_02_28_1950]
        ts_2024_02_28_2000).1 = some ts_2024_02_28_2010 := by
  refine ⟨?_, ?_, ?_, by decide, by decide⟩
  · intro requested rest t closest closestDiff h
    simp [find_loop, h]
  · intro requested rest t closest closestDiff h
    simp only [find_loop]
    rw [if_neg (ne_of_lt h), if_pos h]
  · intro requested rest t closest closestDiff h
    simp only [find_loop]
    rw [if_neg (ne_of_gt h), if_neg (not_lt_of_gt h)]

/-- Closed instance of `c1_scan_branches`: each hypothesis-bearing conjunct
applied at concrete inputs. -/
theorem c1_scan_branches_witness :
    (absdiff 0 5 = 5 ∧ find_loop 0 [5] 7 5 = (some 7, 1))
    ∧ (absdiff 0 3 < 5 ∧
        find_loop 0 [3] 7 5 = ((find_loop 0 [] 3 (absdiff 0 3)).1,
          (find_loop 0 [] 3 (absdiff 0 3)).2 + 1))
    ∧ ((5 : Int) < absdiff 0 9 ∧ find_loop 0 [9] 7 5 = (some 7, 1)) :=
  ⟨⟨by decide, c1_scan_branches.1 0 [] 5 7 5 (by decide)⟩,
   ⟨by decide, c1_scan_branches.2.1 0 [] 3 7 5 (by decide)⟩,
   ⟨by decide, c1_scan_branches.2.2.1 0 [] 9 7 5 (by decide)⟩⟩

/-- C2 (code bug): the Python loop has no `return` after it, so when the scan
exhausts the list the function returns `None`, not the kept closest; in
particular a singleton list with no exact match yields `None` (with zero
distance comparisons), where the claim expects the single element. -/
theorem c2_exhaustion_returns_none :
    find_closest_recent_time [ts_2024_02_28_2010] ts_2024_02_28_2000 = (none, 0)
    ∧ (∀ (requested closest closestDiff : Int),
        find_loop requested [] closest closestDiff = (none, 0)) :=
  ⟨by decide, fun _ _ _ => rfl⟩

/-- C10: on an empty candidate list with no exact match the function returns
`None` without raising, and the caller continues with that absent value. -/
theorem c10_empty_list_returns_none :
    ∀ requested : Int, find_closest_recent_time [] requested = (none, 0) :=
  fun _ => rfl

/-- Helper: when the target occurs in the list, `find?` with the equality
predicate returns it (the first occurrence has the same value). -/
theorem find_eq_self {l : List Int} {t : Int} (h : t ∈ l) :
    l.find? (fun s => s == t) = some t := by
  induction l with
  | nil => cases h
  | cons x xs ih =>
    by_cases hx : x = t
    · subst hx
      rw [List.find?_cons_of_pos _ (by simp)]
    · rcases List.mem_cons.mp h with h1 | h1
      · exact absurd h1.symm hx
      · rw [List.find?_cons_of_neg _ (by simp [hx])]
        exact ih h1

/-- C8: when the list contains the exact-minute target, the fast path returns
it, wherever it appears, with zero distance comparisons. -/
theorem c8_exact_match_fast_path (l : List Int) (t : Int) (h : t ∈ l) :
    find_closest_recent_time l t = (some t, 0) := by
  unfold find_closest_recent_time
  rw [find_eq_self h]

/-- Closed instance of `c8_exact_match_fast_path` with the target in the
middle of the list. -/
theorem c8_exact_match_fast_path_witness :
    (84720 : Int) ∈ [86580, 84720, 84710]
    ∧ find_closest_recent_time [86580, 84720, 84710] 84720 = (some 84720, 0) :=
  ⟨by decide, c8_exact_match_fast_path [86580, 84720, 84710] 84720 (by decide)⟩

/-- C3 (counterexample): with latest 2024-03-01 03:00 and requested offset 3
the code yields 2024-02-29 20:00 (2024 is a leap year), which is a strictly
later instant than the 2024-02-28 20:00 the claim names. -/
theorem c3_counterexample :
    calculate_time_offset ts_2024_03_01_0300 false 3 0 = ts_2024_02_29_2000
    ∧ ts_2024_02_28_2000 < ts_2024_02_29_2000 := by
  constructor <;> decide

/-- C3 (amended): the result is the latest timestamp shifted by
(offset - 10) hours, where the offset is the requested one in non-auto mode
and the clamped detected one in auto mode; with latest 2024-03-01 03:00 and
requested offset 3 the result is 2024-02-29 20:00. -/
theorem c3_offset_shift :
    (∀ latest preferred raw : Int,
        calculate_time_offset latest false preferred raw
          = latest + (preferred - 10) * 60)
    ∧ (∀ latest preferred raw : Int,
        calculate_time_offset latest true preferred raw
          = latest + (clampDetected (detectedHour raw) - 10) * 60)
    ∧ calculate_time_offset ts_2024_03_01_0300 false 3 0 = ts_2024_02_29_2000 :=
  ⟨fun _ _ _ => rfl, fun _ _ _ => rfl, by decide⟩

/-- C4 (counterexample): a detected raw offset of 11.5 hours (690 minutes)
truncates to hour 11, which the code clamps to 10, not the -12 the claim
states; and a raw offset of 13 hours passes through as 13, outside
[-12, 10]. -/
theorem c4_counterexample :
    clampDetected (detectedHour 690) = 10
    ∧ clampDetected (detectedHour 780) = 13 := by
  constructor <;> decide

/-- C4 (amended): a raw detected offset of 10.5 hours yields 10, 11.5 hours
also yields 10 (its hour field truncates to 11, clamped to 10), a raw offset
of exactly 12 hours yields -12, detected hour values in (-12, 10] pass
through unchanged, and whenever the detected hour lies in [-12, 12] the value
used afterwards lies in [-12, 10]; detected hours above 12 (e.g. UTC+13) pass
through unclamped. -/
theorem c4_clamp :
    clampDetected (detectedHour 630) = 10
    ∧ clampDetected (detectedHour 690) = 10
    ∧ clampDetected (detectedHour 720) = -12
    ∧ (∀ d : Int, -12 < d → d ≤ 10 → clampDetected d = d)
    ∧ (∀ raw : Int, -12 ≤ detectedHour raw → detectedHour raw ≤ 12 →
        -12 ≤ clampDetected (detectedHour raw) ∧ clampDetected (detectedHour raw) ≤ 10) := by
  refine ⟨by decide, by decide, by decide, ?_, ?_⟩
  · intro d h1 h2
    unfold clampDetected
    split_ifs <;> omega
  · intro raw h1 h2
    generalize detectedHour raw = d at h1 h2 ⊢
    unfold clampDetected
    split_ifs <;> omega

/-- Closed instance of `c4_clamp`: the pass-through and range conjuncts at
concrete inputs. -/
theorem c4_clamp_witness :
    ((-12 : Int) < 5 ∧ (5 : Int) ≤ 10 ∧ clampDetected 5 = 5)
    ∧ ((-12 : Int) ≤ detectedHour 660 ∧ detectedHour 660 ≤ 12
        ∧ -12 ≤ clampDetected (detectedHour 660) ∧ clampDetected (detectedHour 660) ≤ 10) :=
  ⟨⟨by decide, by decide, c4_clamp.2.2.2.1 5 (by decide) (by decide)⟩,
   ⟨by decide, by decide, c4_clamp.2.2.2.2 660 (by decide) (by decide)⟩⟩

/-- C5: an out-of-range offset or a negative deadline makes validation stop
the run with the corresponding user-facing message, and the effect trace then
holds no network effect whatever the downstream pipeline would have been;
otherwise the parsed arguments are returned unchanged. -/
theorem c5_args_validation :
    (∀ (a : Args) (rest : List Effect),
        ¬ (-12 ≤ a.offset ∧ a.offset ≤ 10) →
        validate_args a = Except.error "OFFSET has to be between -12 and +10!\n"
        ∧ main_start a rest
            = [Effect.exitErr "OFFSET has to be between -12 and +10!\n"]
        ∧ ∀ e ∈ main_start a rest, e.isNetwork = false)
    ∧ (∀ (a : Args) (rest : List Effect),
        (-12 ≤ a.offset ∧ a.offset ≤ 10) → a.deadline < 0 →
        validate_args a
            = Except.error "DEADLINE has to be greater than (or equal to if you want to disable) zero!\n"
        ∧ ∀ e ∈ main_start a rest, e.isNetwork = false)
    ∧ (∀ a : Args, -12 ≤ a.offset → a.offset ≤ 10 → 0 ≤ a.deadline →
        validate_args a = Except.ok a) := by
  refine ⟨?_, ?_, ?_⟩
  · intro a rest h
    have hv : validate_args a = Except.error "OFFSET has to be between -12 and +10!\n" := by
      unfold validate_args
      rw [if_pos h]
    refine ⟨hv, ?_, ?_⟩
    · unfold main_start
      rw [hv]
    · unfold main_start
      rw [hv]
      intro e he
      rcases List.mem_singleton.mp he with rfl
      rfl
  · intro a rest h hd
    have hv : validate_args a
        = Except.error "DEADLINE has to be greater than (or equal to if you want to disable) zero!\n" := by
      unfold validate_args
      rw [if_neg (not_not_intro h), if_pos (by omega)]
    refine ⟨hv, ?_⟩
    unfold main_start
    rw [hv]
    intro e he
    rcases List.mem_singleton.mp he with rfl
    rfl
  · intro a h1 h2 h3
    unfold validate_args
    rw [if_neg (not_not_intro ⟨h1, h2⟩), if_neg (not_not_intro h3)]

/-- Closed instance of `c5_args_validation`: an offset of 20 is rejected with
the offset message, and in-range arguments pass through unchanged. -/
theorem c5_args_validation_witness :
    (¬ (-12 ≤ (Args.mk false 20 4 6 false "out" none).offset
          ∧ (Args.mk false 20 4 6 false "out" none).offset ≤ 10)
      ∧ validate_args (Args.mk false 20 4 6 false "out" none)
          = Except.error "OFFSET has to be between -12 and +10!\n")
    ∧ validate_args (Args.mk false 10 4 6 false "out" none)
        = Except.ok (Args.mk false 10 4 6 false "out" none) :=
  ⟨⟨by decide, (c5_args_validation.1 (Args.mk false 20 4 6 false "out" none) []
      (by decide)).1⟩,
   c5_args_validation.2.2 (Args.mk false 10 4 6 false "out" none)
     (by decide) (by decide) (by decide)⟩

/-- C6: every call of `download` makes at most 3 attempts; a fetch failing on
attempts 1 and 2 and succeeding on attempt 3 returns the successful payload
with exactly 2 retry log lines (each carrying its attempt index out of 3 and
followed by a one-unit sleep); and when all three attempts fail the exception
of the last attempt is raised. -/
theorem c6_download_retry :
    (∀ {ε α : Type} (fetch : Nat → Except ε α), countAttempts (download fetch).2 ≤ 3)
    ∧ (∀ {ε α : Type} (fetch : Nat → Except ε α) (e1 e2 : ε) (a : α),
        fetch 1 = Except.error e1 → fetch 2 = Except.error e2 →
        fetch 3 = Except.ok a →
        download fetch =
          (DLResult.ok a,
           [Ev.attempt 1, Ev.retryLog 1 3, Ev.sleep1,
            Ev.attempt 2, Ev.retryLog 2 3, Ev.sleep1, Ev.attempt 3])
        ∧ countRetryLogs (download fetch).2 = 2)
    ∧ (∀ {ε α : Type} (fetch : Nat → Except ε α) (e1 e2 e3 : ε),
        fetch 1 = Except.error e1 → fetch 2 = Except.error e2 →
        fetch 3 = Except.error e3 →
        (download fetch).1 = DLResult.raised e3) := by
  refine ⟨?_, ?_, ?_⟩
  · intro ε α fetch
    cases h1 : fetch 1 with
    | ok a => simp [download, download_loop, h1, countAttempts]
    | error e1 =>
      cases h2 : fetch 2 with
      | ok a => simp [download, download_loop, h1, h2, countAttempts]
      | error e2 =>
        cases h3 : fetch 3 with
        | ok a => simp [download, download_loop, h1, h2, h3, countAttempts]
        | error e3 => simp [download, download_loop, h1, h2, h3, countAttempts]
  · intro ε α fetch e1 e2 a h1 h2 h3
    constructor
    · simp [download, download_loop, h1, h2, h3]
    · simp [download, download_loop, h1, h2, h3, countRetryLogs]
  · intro ε α fetch e1 e2 e3 h1 h2 h3
    simp [download, download_loop, h1, h2, h3]

/-- A fetch that fails on attempts 1 and 2 and succeeds on attempt 3. -/
def fetchFF : Nat → Except Nat Nat :=
  fun i => if i ≤ 2 then Except.error i else Except.ok 42

/-- Closed instance of `c6_download_retry` on `fetchFF`. -/
theorem c6_download_retry_witness :
    fetchFF 1 = Except.error 1 ∧ fetchFF 2 = Except.error 2
    ∧ fetchFF 3 = Except.ok 42
    ∧ (download fetchFF =
        (DLResult.ok 42,
         [Ev.attempt 1, Ev.retryLog 1 3, Ev.sleep1,
          Ev.attempt 2, Ev.retryLog 2 3, Ev.sleep1, Ev.attempt 3])
       ∧ countRetryLogs (download fetchFF).2 = 2) :=
  ⟨rfl, rfl, rfl, c6_download_retry.2.1 fetchFF 1 2 42 rfl rfl rfl⟩

/-- C9: the final `sys.exit("Could not download ...")` branch is unreachable:
every run of `download` either returns the payload of a successful attempt or
raises the exception recorded by the last failed attempt. -/
theorem c9_exit_branch_unreachable :
    ∀ {ε α : Type} (fetch : Nat → Except ε α),
      (∃ a, (download fetch).1 = DLResult.ok a)
      ∨ (∃ e, (download fetch).1 = DLResult.raised e) := by
  intro ε α fetch
  cases h1 : fetch 1 with
  | ok a => exact Or.inl ⟨a, by simp [download, download_loop, h1]⟩
  | error e1 =>
    cases h2 : fetch 2 with
    | ok a => exact Or.inl ⟨a, by simp [download, download_loop, h1, h2]⟩
    | error e2 =>
      cases h3 : fetch 3 with
      | ok a => exact Or.inl ⟨a, by simp [download, download_loop, h1, h2, h3]⟩
      | error e3 => exact Or.inr ⟨e3, by simp [download, download_loop, h1, h2, h3]⟩

/-- C7 (code bug): prior output files are deleted before the save is
attempted, so a run whose save step fails leaves the directory empty rather
than keeping the previous file; on full success exactly the one new file
matches the output glob. -/
theorem c7_eager_delete :
    thread_main_files ["himawari-20240101T000000.png"]
        "himawari-20240229T200000.png" true false = (false, [])
    ∧ (∀ (files : List String) (newName : String),
        matchesHimawariGlob newName = true →
        (thread_main_files files newName true true).2.filter matchesHimawariGlob
          = [newName])
    ∧ (∀ (files : List String) (newName : String),
        thread_main_files files newName false true = (false, files)) := by
  refine ⟨by decide, ?_, fun _ _ => rfl⟩
  intro files newName h
  simp only [thread_main_files, output_phase, if_pos, if_true, delete_prior_outputs]
  rw [List.filter_cons_of_pos h, List.filter_filter]
  simp

/-- Closed instance of `c7_eager_delete`: on success over a directory holding
one old output, exactly the new file remains matching the glob. -/
theorem c7_eager_delete_witness :
    matchesHimawariGlob "himawari-20240229T200000.png" = true
    ∧ (thread_main_files ["himawari-20240101T000000.png"]
        "himawari-20240229T200000.png" true true).2.filter matchesHimawariGlob
        = ["himawari-20240229T200000.png"] :=
  ⟨by decide,
   c7_eager_delete.2.1 ["himawari-20240101T000000.png"]
     "himawari-20240229T200000.png" (by decide)⟩
